import Mathlib

/-!
Shallow embedding of the admission-lifecycle core of the his-er-management
backend (src/backend/server.js, POST /admissions and
PATCH /admissions/:id/status) together with the database constraints of
src/db/init.sql (unique `braccialetto`, unique `codice_fiscale`, NOT NULL
columns, the `triage_color` enum type on `admissions.codice_colore`).

The persistent store is a pair of tables (patients, admissions) plus the
SERIAL id counters.  A request handler is a function from the store to the
new store and the HTTP-level outcome.  The transaction of POST /admissions
(BEGIN ... COMMIT / ROLLBACK) is embedded by running the statement sequence
on a working copy of the store and returning the original store on any
error (ROLLBACK) and the working copy on success (COMMIT).
-/

/-- Row of table `patients` (init.sql).  `codice_fiscale` is UNIQUE NOT NULL;
`nome`, `cognome`, `data_nascita` are NOT NULL; address fields are nullable.
Dates and timestamps are abstracted as `String` resp. `Nat` ordinals
(VARCHAR length limits are not modelled; no claim depends on them). -/
structure Patient where
  id : Nat
  codice_fiscale : String
  nome : String
  cognome : String
  data_nascita : String
  indirizzo_via : Option String
  indirizzo_civico : Option String
  comune : Option String
  provincia : Option String
  created_at : Nat
deriving Repr, DecidableEq

/-- Row of table `admissions` (init.sql).  `braccialetto` is UNIQUE NOT NULL,
`stato` is constrained to the `admission_status` enum, `codice_colore` is a
nullable `triage_color` enum column, `patient_id` references `patients(id)`.
`note_triage` is never written by the backend (stays NULL at insert). -/
structure Admission where
  id : Nat
  patient_id : Nat
  braccialetto : String
  data_ora_ingresso : Nat
  stato : String
  patologia_codice : Option String
  codice_colore : Option String
  modalita_arrivo : Option String
  note_triage : Option String
  updated_at : Nat
deriving Repr, DecidableEq

/-- The mutable database state seen by the two admission endpoints. -/
structure Store where
  patients : List Patient
  admissions : List Admission
  nextPatientId : Nat
  nextAdmissionId : Nat
deriving Repr, DecidableEq

/-- Values of the Postgres enum `admission_status` (init.sql), equal to the
`allowed` list hard-coded in the PATCH handler. -/
def admissionStatusEnum : List String := ["ATT", "VIS", "OBI", "RIC", "DIM"]

/-- Values of the Postgres enum `triage_color` (init.sql): a string bound to
`admissions.codice_colore` must be one of these or the insert fails. -/
def triageColorEnum : List String :=
  ["ROSSO", "ARANCIONE", "AZZURRO", "VERDE", "BIANCO"]

/-- Modelled from the spec: the ColorRegistry (the `triage_colors` lookup
table joined by the read endpoints) is not created anywhere under src/;
following the spec's ColorRegistry description and the seed rows that
reference colours by these codes, its registered codes are taken to be the
five `triage_color` enum members. -/
def colorRegistry : List String :=
  ["ROSSO", "ARANCIONE", "AZZURRO", "VERDE", "BIANCO"]

/-- Database-level error that aborts the transaction; the handler's catch
block rolls back and surfaces it as an HTTP 500 with the error message. -/
inductive DbErr where
  | uniqueViolation (constraintName : String)
  | notNullViolation (tableName : String)
  | invalidEnumValue (value : String)
  | fkViolation (constraintName : String)
deriving Repr, DecidableEq

/-- Outcome of POST /admissions: 403 for the AMM role check, 500 after a
ROLLBACK, 201 with the inserted row on COMMIT. -/
inductive CreateResult where
  | forbidden
  | serverError (e : DbErr)
  | created (a : Admission)
deriving Repr, DecidableEq

/-- Input body of POST /admissions; every field is optional because the JS
destructuring turns absent JSON fields into `undefined` (bound as NULL). -/
structure AdmissionRequest where
  nome : Option String
  cognome : Option String
  dataDiNascita : Option String
  codiceFiscale : Option String
  via : Option String
  civico : Option String
  comune : Option String
  provincia : Option String
  patologia : Option String
  codiceColore : Option String
  modalitaArrivo : Option String
deriving Repr, DecidableEq

/-- JavaScript `String(n).padStart(width, c)`: left-pad to at least `width`
characters (a minimum width — longer strings pass through unchanged). -/
def padStart (s : String) (width : Nat) (c : Char) : String :=
  String.mk (List.replicate (width - s.length) c ++ s.data)

/-- Bracelet format of server.js step B: `${year}-${String(n).padStart(4, "0")}`. -/
def formatBraccialetto (year n : Nat) : String :=
  toString year ++ "-" ++ padStart (toString n) 4 '0'

/-- SQL `col LIKE 'pre%'` where `pre` contains no wildcard characters:
a plain prefix test on the characters. -/
def likePrefix (pre s : String) : Bool :=
  pre.data.isPrefixOf s.data

/-- The count query of server.js step B:
`SELECT count(*) FROM admissions WHERE braccialetto LIKE '${year}-%'`. -/
def countYear (s : Store) (year : Nat) : Nat :=
  (s.admissions.filter (fun a => likePrefix (toString year ++ "-") a.braccialetto)).length

/-- Step B of POST /admissions: count the year's bracelets, add one, format. -/
def allocateBraccialetto (s : Store) (year : Nat) : String :=
  formatBraccialetto year (countYear s year + 1)

/-- Step A of POST /admissions:
`SELECT id FROM patients WHERE codice_fiscale = $1`; a NULL parameter
(absent `codiceFiscale`) matches no row. -/
def findPatient (s : Store) (cf : Option String) : Option Patient :=
  match cf with
  | none => none
  | some c => s.patients.find? (fun p => p.codice_fiscale == c)

/-- Step A of POST /admissions inside the transaction: reuse the existing
patient id when the lookup hits, otherwise run the INSERT INTO patients.
The INSERT enforces init.sql's NOT NULL columns and the unique constraint
on `codice_fiscale` (the latter is unreachable sequentially right after a
missed lookup, but it is the database's constraint, kept for fidelity). -/
def resolvePatient (s : Store) (req : AdmissionRequest) (now : Nat) :
    Except DbErr (Nat × Store) :=
  match findPatient s req.codiceFiscale with
  | some p => .ok (p.id, s)
  | none =>
    match req.codiceFiscale, req.nome, req.cognome, req.dataDiNascita with
    | some cf, some nome, some cognome, some dn =>
      if s.patients.any (fun p => p.codice_fiscale == cf) then
        .error (.uniqueViolation "patients_codice_fiscale_key")
      else
        let p : Patient :=
          ⟨s.nextPatientId, cf, nome, cognome, dn,
            req.via, req.civico, req.comune, req.provincia, now⟩
        .ok (p.id, { s with patients := s.patients ++ [p],
                            nextPatientId := s.nextPatientId + 1 })
    | _, _, _, _ => .error (.notNullViolation "patients")

/-- Nullable `triage_color` column check: NULL is accepted, a non-NULL string
must be a member of the enum. -/
def colorOk (c : Option String) : Bool :=
  match c with
  | none => true
  | some v => triageColorEnum.contains v

/-- Step C of POST /admissions: INSERT INTO admissions, enforcing init.sql's
constraints — enum typing of `codice_colore` and `stato`, uniqueness of
`braccialetto`, and the foreign key on `patient_id`. -/
def insertAdmission (s : Store) (a : Admission) : Except DbErr Store :=
  if !colorOk a.codice_colore then
    .error (.invalidEnumValue (a.codice_colore.getD ""))
  else if s.admissions.any (fun b => b.braccialetto == a.braccialetto) then
    .error (.uniqueViolation "admissions_braccialetto_key")
  else if !admissionStatusEnum.contains a.stato then
    .error (.invalidEnumValue a.stato)
  else if !s.patients.any (fun p => p.id == a.patient_id) then
    .error (.fkViolation "admissions_patient_id_fkey")
  else
    .ok { s with admissions := s.admissions ++ [a],
                 nextAdmissionId := s.nextAdmissionId + 1 }

/-- POST /admissions (server.js lines 256-310).  The AMM role is rejected
with 403 before the transaction starts; then, inside one transaction:
resolve or create the patient (step A), allocate the bracelet from the
year-scoped count (step B), insert the admission with fixed initial state
"ATT" (step C).  Any error rolls the whole transaction back (the original
store is returned) and surfaces as a 500; success commits.  `year` stands
for `new Date().getFullYear()` and `now` for the CURRENT_TIMESTAMP
defaults. -/
def createAdmission (role : String) (req : AdmissionRequest) (year now : Nat)
    (s : Store) : Store × CreateResult :=
  if role == "AMM" then
    (s, .forbidden)
  else
    match resolvePatient s req now with
    | .error e => (s, .serverError e)
    | .ok (patientId, s1) =>
      let braccialetto := allocateBraccialetto s1 year
      let adm : Admission :=
        ⟨s1.nextAdmissionId, patientId, braccialetto, now, "ATT",
          req.patologia, req.codiceColore, req.modalitaArrivo, none, now⟩
      match insertAdmission s1 adm with
      | .error e => (s, .serverError e)
      | .ok s2 => (s2, .created adm)

/-- The `allowed` list of the PATCH /admissions/:id/status handler. -/
def allowed : List String := ["ATT", "VIS", "OBI", "RIC", "DIM"]

/-- Outcome of PATCH /admissions/:id/status: 400 when the target state is
not in `allowed`, otherwise 200 with `result.rows[0]` — which is absent
(`undefined`, serialised as an empty body) when the UPDATE matched no row. -/
inductive TransitionResult where
  | invalidState
  | okPayload (a : Option Admission)
deriving Repr, DecidableEq

/-- PATCH /admissions/:id/status (server.js lines 313-329): validate the
target against `allowed`, then
`UPDATE admissions SET stato = $1 WHERE id = $2 RETURNING *` and respond
with `rows[0]`. -/
def transition (id_ : Nat) (nuovoStato : String) (s : Store) :
    Store × TransitionResult :=
  if !allowed.contains nuovoStato then
    (s, .invalidState)
  else
    let updated := s.admissions.map
      (fun a => if a.id == id_ then { a with stato := nuovoStato } else a)
    (({ s with admissions := updated } : Store),
      .okPayload ((updated.filter (fun a => a.id == id_)).head?))

/-- The empty database (SERIAL counters start at 1). -/
def emptyStore : Store := ⟨[], [], 1, 1⟩

/-- A complete, well-formed request body used by the concrete witnesses. -/
def reqMario : AdmissionRequest :=
  ⟨some "Mario", some "Rossi", some "1980-05-20", some "RSSMRA80E20H501U",
    some "Via Roma", some "10", some "Milano", some "MI",
    some "C1", some "ROSSO", some "AMBULANZA"⟩

/-- The patient row created by `reqMario` on the empty store. -/
def patMario : Patient :=
  ⟨1, "RSSMRA80E20H501U", "Mario", "Rossi", "1980-05-20",
    some "Via Roma", some "10", some "Milano", some "MI", 0⟩

/-- The admission row created by `reqMario` on the empty store. -/
def admMario : Admission :=
  ⟨1, 1, "2025-0001", 0, "ATT", some "C1", some "ROSSO", some "AMBULANZA", none, 0⟩

/-- The store after the first successful admission of `reqMario`. -/
def storeAfterMario : Store := ⟨[patMario], [admMario], 2, 2⟩

/-- The intermediate store inside the transaction of `reqMario` on the empty
store, right after step A and before step C. -/
def storePatMario : Store := ⟨[patMario], [], 2, 1⟩

/-- A second complete request with a different natural key. -/
def reqLaura : AdmissionRequest :=
  ⟨some "Laura", some "Bianchi", some "1992-11-15", some "BNCLRA92S55H501K",
    none, none, none, none, some "C4", some "ARANCIONE", some "AUTONOMO"⟩

/-- A store holding one admission whose bracelet is "2025-0002" while no
"2025-0001" exists, so the year count is 1 and the next computed bracelet
"2025-0002" collides with the stored one. -/
def storeCollision : Store :=
  ⟨[patMario], [⟨1, 1, "2025-0002", 0, "ATT", some "C1", some "ROSSO",
    some "AMBULANZA", none, 0⟩], 2, 2⟩

/-- The intermediate store inside the transaction of `reqLaura` on
`storeCollision`, right after step A and before step C. -/
def storeCollision1 : Store :=
  ⟨[patMario, ⟨2, "BNCLRA92S55H501K", "Laura", "Bianchi", "1992-11-15",
    none, none, none, none, 1⟩],
   [⟨1, 1, "2025-0002", 0, "ATT", some "C1", some "ROSSO", some "AMBULANZA",
    none, 0⟩], 3, 2⟩

/-- A request whose triage colour "GIALLO" is not a `triage_color` enum
member and not a registered colour. -/
def reqGiallo : AdmissionRequest :=
  ⟨some "Giulia", some "Verdi", some "1990-01-01", some "VRDGLL90A41H501X",
    none, none, none, none, some "C7", some "GIALLO", some "AUTONOMO"⟩

/-- The intermediate store inside the transaction of `reqGiallo` on the
empty store, right after step A and before step C. -/
def storePatGiulia : Store :=
  ⟨[⟨1, "VRDGLL90A41H501X", "Giulia", "Verdi", "1990-01-01",
    none, none, none, none, 0⟩], [], 2, 1⟩

/-! Helper lemmas shared by several claim theorems. -/

theorem resolvePatient_admissions {s : Store} {req : AdmissionRequest} {now pid : Nat}
    {s1 : Store} (h : resolvePatient s req now = .ok (pid, s1)) :
    s1.admissions = s.admissions ∧ s1.nextAdmissionId = s.nextAdmissionId := by
  unfold resolvePatient at h
  split at h
  · cases h
    exact ⟨rfl, rfl⟩
  · split at h
    · split at h
      · cases h
      · cases h
        exact ⟨rfl, rfl⟩
    · cases h

theorem resolvePatient_fk {s : Store} {req : AdmissionRequest} {now pid : Nat}
    {s1 : Store} (h : resolvePatient s req now = .ok (pid, s1)) :
    s1.patients.any (fun p => p.id == pid) = true := by
  unfold resolvePatient at h
  split at h
  · rename_i p hp
    cases h
    have hmem : p ∈ s.patients := by
      unfold findPatient at hp
      split at hp
      · cases hp
      · exact List.mem_of_find?_eq_some hp
    exact List.any_eq_true.mpr ⟨p, hmem, by simp⟩
  · split at h
    · split at h
      · cases h
      · cases h
        rename_i cf nome cognome dn _ _
        refine List.any_eq_true.mpr ⟨_, List.mem_append_right _ (List.mem_singleton.mpr rfl), by simp⟩
    · cases h

theorem insertAdmission_ok {s : Store} {a : Admission} {s2 : Store}
    (h : insertAdmission s a = .ok s2) :
    s2.admissions = s.admissions ++ [a] ∧ s2.patients = s.patients ∧
    s2.nextPatientId = s.nextPatientId := by
  unfold insertAdmission at h
  split at h
  · cases h
  · split at h
    · cases h
    · split at h
      · cases h
      · split at h
        · cases h
        · cases h
          exact ⟨rfl, rfl, rfl⟩

theorem likePrefix_format (y m : Nat) :
    likePrefix (toString y ++ "-") (formatBraccialetto y m) = true := by
  unfold likePrefix formatBraccialetto
  rw [String.data_append]
  simp [ List.isPrefixOf_iff_prefix, List.prefix_append]

/-- Inversion of a successful run of createAdmission: the role check passed,
the patient step produced some id and intermediate store, the returned row
is exactly the row built from the computed bracelet, and the insert
committed. -/
theorem createAdmission_created_inv {role : String} {req : AdmissionRequest}
    {y now : Nat} {s s' : Store} {a : Admission}
    (h : createAdmission role req y now s = (s', CreateResult.created a)) :
    ∃ pid s1,
      resolvePatient s req now = .ok (pid, s1) ∧
      a = ⟨s1.nextAdmissionId, pid, allocateBraccialetto s1 y, now, "ATT",
            req.patologia, req.codiceColore, req.modalitaArrivo, none, now⟩ ∧
      insertAdmission s1 a = .ok s' := by
  unfold createAdmission at h
  split at h
  · cases h
  · split at h
    · cases h
    · rename_i pid s1 hres
      dsimp only at h
      split at h
      · cases h
      · rename_i s2 hins
        obtain ⟨h1, h2⟩ := Prod.mk.injEq .. ▸ h
        cases h2
        exact ⟨pid, s1, hres, rfl, h1 ▸ hins⟩

/-- Claim C2: createAdmission is atomic: any run that does not end in a committed
`created` row returns the store unchanged — no patient row, no admission
row, no bracelet consumption survives a failed call (the ROLLBACK branches
of the handler all restore the pre-call store). -/
theorem createAdmission_atomic (role : String) (req : AdmissionRequest)
    (y now : Nat) (s : Store) :
    (createAdmission role req y now s).1 = s ∨
    ∃ a, (createAdmission role req y now s).2 = CreateResult.created a := by
  unfold createAdmission
  split
  · exact Or.inl rfl
  · split
    · exact Or.inl rfl
    · dsimp only
      split
      · exact Or.inl rfl
      · exact Or.inr ⟨_, rfl⟩

/-- Claim C6: the administrative role AMM is rejected with Forbidden before any
mutation (the store is returned untouched), and no other role value is ever
rejected by the authorization check. -/
theorem createAdmission_amm_gate (role : String) (req : AdmissionRequest)
    (y now : Nat) (s : Store) :
    createAdmission "AMM" req y now s = (s, CreateResult.forbidden) ∧
    (role ≠ "AMM" → (createAdmission role req y now s).2 ≠ CreateResult.forbidden) := by
  constructor
  · unfold createAdmission
    simp
  · intro hrole
    unfold createAdmission
    rw [if_neg (by simpa using hrole)]
    split
    · simp
    · dsimp only
      split
      · simp
      · simp

/-- Claim C3: a successful createAdmission in year y, performed when the store
holds n admissions whose bracelet starts with "y-", returns the bracelet
`formatBraccialetto y (n+1)` (i.e. "y-" ++ n+1 zero-padded to 4 digits),
and raises the year's bracelet count to n+1 — so consecutive successful
allocations within a year carry strictly increasing sequence numbers, and
the first allocation of a year (n = 0) yields "y-0001". -/
theorem createAdmission_bracelet_sequence (role : String) (req : AdmissionRequest)
    (y now : Nat) (s s' : Store) (a : Admission)
    (h : createAdmission role req y now s = (s', CreateResult.created a)) :
    a.braccialetto = formatBraccialetto y (countYear s y + 1) ∧
    countYear s' y = countYear s y + 1 ∧
    (countYear s y = 0 → a.braccialetto = toString y ++ "-0001") := by
  obtain ⟨pid, s1, hres, ha, hins⟩ := createAdmission_created_inv h
  obtain ⟨hadm, _⟩ := resolvePatient_admissions hres
  obtain ⟨hadm2, _, _⟩ := insertAdmission_ok hins
  have hcount1 : countYear s1 y = countYear s y := by
    unfold countYear
    rw [hadm]
  have hbr : a.braccialetto = formatBraccialetto y (countYear s y + 1) := by
    rw [ha]
    show allocateBraccialetto s1 y = _
    unfold allocateBraccialetto
    rw [hcount1]
  refine ⟨hbr, ?_, ?_⟩
  · have hpref : likePrefix (toString y ++ "-") a.braccialetto = true := by
      rw [hbr]
      exact likePrefix_format y _
    show (s'.admissions.filter _).length = _
    rw [hadm2, List.filter_append, List.length_append]
    have : countYear s1 y = countYear s y := hcount1
    unfold countYear at this
    rw [this]
    have hone : (List.filter (fun b => likePrefix (toString y ++ "-") b.braccialetto) [a]).length = 1 := by
      simp [List.filter_cons, hpref]
    rw [hone]
    rfl
  · intro h0
    rw [hbr, h0]
    unfold formatBraccialetto
    have h1 : padStart (toString 1) 4 '0' = "0001" := by decide
    rw [h1, String.append_assoc]
    have h2 : ("-" : String) ++ "0001" = "-0001" := by decide
    rw [h2]

/-- Claim C10: the 4-digit width of the bracelet sequence is a minimum, not a
maximum: the sequence part is the decimal representation of n+1 left-padded
with zeros to at least 4 characters, it passes through unchanged once it
has 4 or more digits, and after 9999 admissions in a year the next bracelet
is "y-10000" — the allocator never wraps or truncates on overflow of the
4-digit format. -/
theorem bracelet_seq_min_width (y n : Nat) :
    formatBraccialetto y (n + 1) =
      toString y ++ "-" ++ padStart (toString (n + 1)) 4 '0' ∧
    (padStart (toString (n + 1)) 4 '0').length = max 4 (toString (n + 1)).length ∧
    (∃ z : List Char, padStart (toString (n + 1)) 4 '0' = String.mk z ++ toString (n + 1) ∧
      ∀ c ∈ z, c = '0') ∧
    (4 ≤ (toString (n + 1)).length → padStart (toString (n + 1)) 4 '0' = toString (n + 1)) ∧
    (n = 9999 → formatBraccialetto y (n + 1) = toString y ++ "-10000") := by
  have hdl : ∀ t : String, t.data.length = t.length := fun t => rfl
  refine ⟨rfl, ?_, ?_, ?_, ?_⟩
  · show (String.mk (List.replicate (4 - (toString (n + 1)).length) '0' ++
      (toString (n + 1)).data)).length = _
    rw [String.length_mk, List.length_append, List.length_replicate, hdl]
    exact tsub_add_eq_max
  · refine ⟨List.replicate (4 - (toString (n + 1)).length) '0', ?_, ?_⟩
    · apply String.ext
      rw [String.data_append]
      rfl
    · intro c hc
      exact List.eq_of_mem_replicate hc
  · intro h4
    unfold padStart
    rw [Nat.sub_eq_zero_of_le h4, List.replicate_zero, List.nil_append]
  · intro h9999
    subst h9999
    have h1 : (9999 + 1 : Nat) = 10000 := rfl
    rw [h1]
    unfold formatBraccialetto
    have h2 : padStart (toString 10000) 4 '0' = "10000" := by decide
    rw [h2, String.append_assoc]
    have h3 : ("-" : String) ++ "10000" = "-10000" := by decide
    rw [h3]

/-- Helper for C5: when some admission in the list has the requested id, the
RETURNING * row of the UPDATE exists and carries the target state. -/
theorem update_filter_head {l : List Admission} {i : Nat} {t : String}
    (hex : ∃ a ∈ l, a.id = i) :
    ∃ b, ((l.map (fun a => if a.id == i then { a with stato := t } else a)).filter
        (fun a => a.id == i)).head? = some b ∧ b.id = i ∧ b.stato = t := by
  induction l with
  | nil => simp at hex
  | cons a l ih =>
    by_cases hai : a.id = i
    · refine ⟨{ a with stato := t }, ?_, hai, rfl⟩
      simp [List.filter_cons, hai]
    · obtain ⟨c, hc, hci⟩ := hex
      rcases List.mem_cons.mp hc with rfl | hc2
      · exact absurd hci hai
      · have hres := ih ⟨c, hc2, hci⟩
        simpa [List.filter_cons, hai] using hres

/-- Claim C5: transition fails with InvalidState exactly when the target state is
outside the five-value enumeration, and for any target inside the
enumeration the call succeeds on an existing admission — regardless of its
current state (no-op, backward and out-of-DIM/RIC moves included) — the
returned row carries the target state, and the stored row with the
requested id is set to the target state. -/
theorem transition_invalid_iff (s : Store) (i : Nat) (t : String)
    (hex : ∃ a ∈ s.admissions, a.id = i) :
    ((transition i t s).2 = TransitionResult.invalidState ↔ t ∉ allowed) ∧
    (t ∈ allowed → ∃ b, (transition i t s).2 = TransitionResult.okPayload (some b) ∧
      b.id = i ∧ b.stato = t) ∧
    (t ∈ allowed → ∀ b ∈ (transition i t s).1.admissions, b.id = i → b.stato = t) := by
  refine ⟨?_, ?_, ?_⟩
  · unfold transition
    by_cases hmem : t ∈ allowed
    · rw [if_neg (by simp [List.contains, List.elem_iff, hmem])]
      simp [hmem]
    · rw [if_pos (by simp [List.contains, List.elem_iff, hmem])]
      simp [hmem]
  · intro hmem
    obtain ⟨b, hb, hbi, hbs⟩ := update_filter_head (l := s.admissions) (i := i) (t := t) hex
    refine ⟨b, ?_, hbi, hbs⟩
    unfold transition
    rw [if_neg (by simp [List.contains, List.elem_iff, hmem])]
    dsimp only
    rw [hb]
  · intro hmem b hbmem hbi
    have h1 : (transition i t s).1 = { s with admissions := s.admissions.map (fun a => if a.id == i then { a with stato := t } else a) } := by
      unfold transition
      rw [if_neg (by simp [List.contains, List.elem_iff, hmem])]
    rw [h1] at hbmem
    obtain ⟨a, hamem, hab⟩ := List.mem_map.mp hbmem
    by_cases hai : a.id = i
    · rw [if_pos (by simpa using hai)] at hab
      rw [← hab]
    · rw [if_neg (by simpa using hai)] at hab
      rw [← hab] at hbi
      exact absurd hbi hai

/-- Claim C9: a transition with a valid target state rewrites only the `stato`
field of the matching admission: the patient table, the number of
admissions, and every stored field of every admission row other than the
target row's state — id, patient reference, bracelet, creation timestamp,
triage colour, pathology code, arrival mode, triage notes — are unchanged,
and non-matching rows keep their state too. -/
theorem transition_frame (s : Store) (i : Nat) (t : String) (ht : t ∈ allowed) :
    (transition i t s).1.patients = s.patients ∧
    (transition i t s).1.admissions.length = s.admissions.length ∧
    ∀ k (hk : k < s.admissions.length) (hk2 : k < (transition i t s).1.admissions.length),
      ((transition i t s).1.admissions.get ⟨k, hk2⟩).id = (s.admissions.get ⟨k, hk⟩).id ∧
      ((transition i t s).1.admissions.get ⟨k, hk2⟩).patient_id = (s.admissions.get ⟨k, hk⟩).patient_id ∧
      ((transition i t s).1.admissions.get ⟨k, hk2⟩).braccialetto = (s.admissions.get ⟨k, hk⟩).braccialetto ∧
      ((transition i t s).1.admissions.get ⟨k, hk2⟩).data_ora_ingresso = (s.admissions.get ⟨k, hk⟩).data_ora_ingresso ∧
      ((transition i t s).1.admissions.get ⟨k, hk2⟩).codice_colore = (s.admissions.get ⟨k, hk⟩).codice_colore ∧
      ((transition i t s).1.admissions.get ⟨k, hk2⟩).patologia_codice = (s.admissions.get ⟨k, hk⟩).patologia_codice ∧
      ((transition i t s).1.admissions.get ⟨k, hk2⟩).modalita_arrivo = (s.admissions.get ⟨k, hk⟩).modalita_arrivo ∧
      ((transition i t s).1.admissions.get ⟨k, hk2⟩).note_triage = (s.admissions.get ⟨k, hk⟩).note_triage ∧
      ((s.admissions.get ⟨k, hk⟩).id ≠ i →
        ((transition i t s).1.admissions.get ⟨k, hk2⟩).stato = (s.admissions.get ⟨k, hk⟩).stato) ∧
      ((s.admissions.get ⟨k, hk⟩).id = i →
        ((transition i t s).1.admissions.get ⟨k, hk2⟩).stato = t) := by
  have hcond : ¬((!allowed.contains t) = true) := by
    simp [List.contains, List.elem_iff, ht]
  have h1 : (transition i t s).1 = { s with admissions := s.admissions.map (fun a => if a.id == i then { a with stato := t } else a) } := by
    unfold transition
    rw [if_neg hcond]
  rw [h1]
  refine ⟨rfl, by simp, ?_⟩
  intro k hk hk2
  have hmap : ({ s with admissions := s.admissions.map (fun a => if a.id == i then { a with stato := t } else a) } : Store).admissions.get ⟨k, hk2⟩ = (fun a => if a.id == i then { a with stato := t } else a) (s.admissions.get ⟨k, hk⟩) := by
    simp [List.get_eq_getElem, List.getElem_map]
  rw [hmap]
  dsimp only
  by_cases hid : (s.admissions.get ⟨k, hk⟩).id = i
  · rw [if_pos (by simpa using hid)]
    exact ⟨rfl, rfl, rfl, rfl, rfl, rfl, rfl, rfl, fun hne => absurd hid hne, fun _ => rfl⟩
  · rw [if_neg (by simpa using hid)]
    exact ⟨rfl, rfl, rfl, rfl, rfl, rfl, rfl, rfl, fun _ => rfl, fun hcontra => absurd hcontra hid⟩

/-- Helper for C8: when the lookup by codice_fiscale hits, step A returns the
existing patient's id and leaves the store untouched. -/
theorem resolvePatient_found {s : Store} {req : AdmissionRequest} {now : Nat}
    {cf : String} {p : Patient}
    (hcf : req.codiceFiscale = some cf)
    (hp : s.patients.find? (fun q => q.codice_fiscale == cf) = some p) :
    resolvePatient s req now = .ok (p.id, s) := by
  unfold resolvePatient findPatient
  rw [hcf]
  dsimp only
  rw [hp]

/-- Helper for C8: when the lookup misses and step A succeeds, exactly one
new patient row carrying the supplied demographics was appended. -/
theorem resolvePatient_fresh {s : Store} {req : AdmissionRequest} {now pid : Nat}
    {s1 : Store} {cf : String}
    (hcf : req.codiceFiscale = some cf)
    (hp : s.patients.find? (fun q => q.codice_fiscale == cf) = none)
    (h : resolvePatient s req now = .ok (pid, s1)) :
    ∃ np : Patient, s1.patients = s.patients ++ [np] ∧ pid = np.id ∧
      np.id = s.nextPatientId ∧ np.codice_fiscale = cf ∧
      some np.nome = req.nome ∧ some np.cognome = req.cognome ∧
      some np.data_nascita = req.dataDiNascita ∧
      np.indirizzo_via = req.via ∧ np.indirizzo_civico = req.civico ∧
      np.comune = req.comune ∧ np.provincia = req.provincia := by
  unfold resolvePatient findPatient at h
  rw [hcf] at h
  dsimp only at h
  rw [hp] at h
  dsimp only at h
  split at h
  · rename_i cfv nomev cognomev dnv hcfv hnomev hcognv hdnv
    split at h
    · cases h
    · cases h
      obtain rfl : cf = cfv := Option.some_inj.mp hcfv
      exact ⟨_, rfl, rfl, rfl, rfl, hnomev.symm, hcognv.symm, hdnv.symm, rfl, rfl, rfl, rfl⟩
  · cases h

/-- Claim C8: patient resolution is idempotent in the natural key.  If a patient
with the request's codice fiscale exists, every outcome of createAdmission
leaves the patient table exactly as it was (the supplied demographics are
discarded, nothing is overwritten) and a successful admission references
that patient's id; only when no such patient exists does a successful call
append one new patient row, carrying exactly the supplied demographics,
and the admission references the new row. -/
theorem createAdmission_patient_idempotent (role : String) (req : AdmissionRequest)
    (y now : Nat) (s : Store) :
    (∀ cf p, req.codiceFiscale = some cf →
      s.patients.find? (fun q => q.codice_fiscale == cf) = some p →
      (createAdmission role req y now s).1.patients = s.patients ∧
      (∀ s' a, createAdmission role req y now s = (s', CreateResult.created a) →
        a.patient_id = p.id)) ∧
    (∀ cf, req.codiceFiscale = some cf →
      s.patients.find? (fun q => q.codice_fiscale == cf) = none →
      ∀ s' a, createAdmission role req y now s = (s', CreateResult.created a) →
      ∃ np : Patient, s'.patients = s.patients ++ [np] ∧ a.patient_id = np.id ∧
        np.codice_fiscale = cf ∧ some np.nome = req.nome ∧
        some np.cognome = req.cognome ∧ some np.data_nascita = req.dataDiNascita ∧
        np.indirizzo_via = req.via ∧ np.indirizzo_civico = req.civico ∧
        np.comune = req.comune ∧ np.provincia = req.provincia) := by
  constructor
  · intro cf p hcf hp
    have hres : resolvePatient s req now = .ok (p.id, s) :=
      resolvePatient_found hcf hp
    constructor
    · unfold createAdmission
      split
      · rfl
      · rw [hres]
        dsimp only
        split
        · rfl
        · rename_i s2 hins
          exact (insertAdmission_ok hins).2.1
    · intro s' a hca
      obtain ⟨pid, s1, hres2, ha, _⟩ := createAdmission_created_inv hca
      rw [hres] at hres2
      obtain ⟨hpid, _⟩ := Prod.mk.injEq .. ▸ (Except.ok.injEq .. ▸ hres2)
      rw [ha]
      exact hpid.symm
  · intro cf hcf hp s' a hca
    obtain ⟨pid, s1, hres, ha, hins⟩ := createAdmission_created_inv hca
    obtain ⟨np, hnp, hpidnp, _, hnpcf, hnome, hcogn, hdn, hvia, hciv, hcom, hprov⟩ :=
      resolvePatient_fresh hcf hp hres
    refine ⟨np, ?_, ?_, hnpcf, hnome, hcogn, hdn, hvia, hciv, hcom, hprov⟩
    · rw [(insertAdmission_ok hins).2.1, hnp]
    · rw [ha]
      exact hpidnp

/-- Helper: once the role check has passed and step A has produced a patient
id and intermediate store, createAdmission is decided by the admission
insert on the working store. -/
theorem createAdmission_after_resolve {role : String} {req : AdmissionRequest}
    {y now : Nat} {s : Store} {pid : Nat} {s1 : Store}
    (hrole : role ≠ "AMM")
    (hres : resolvePatient s req now = .ok (pid, s1)) :
    createAdmission role req y now s =
      (match insertAdmission s1 ⟨s1.nextAdmissionId, pid, allocateBraccialetto s1 y,
          now, "ATT", req.patologia, req.codiceColore, req.modalitaArrivo, none, now⟩ with
        | .error e => (s, CreateResult.serverError e)
        | .ok s2 => (s2, CreateResult.created ⟨s1.nextAdmissionId, pid,
            allocateBraccialetto s1 y, now, "ATT", req.patologia, req.codiceColore,
            req.modalitaArrivo, none, now⟩)) := by
  unfold createAdmission
  rw [if_neg (by simpa using hrole), hres]

/-- Claim C1 amended: when the computed bracelet collides with a stored
one, createAdmission does not retry with a recomputed count: the very first
duplicate rejection aborts the transaction and the uniqueness violation is
surfaced to the caller as a server error (there is no AllocationExhausted
and no retry budget anywhere in the handler). -/
theorem createAdmission_duplicate_surfaces (role : String) (req : AdmissionRequest)
    (y now : Nat) (s : Store) (pid : Nat) (s1 : Store)
    (hrole : role ≠ "AMM")
    (hres : resolvePatient s req now = .ok (pid, s1))
    (hcolor : colorOk req.codiceColore = true)
    (hdup : s1.admissions.any (fun b => b.braccialetto == allocateBraccialetto s1 y) = true) :
    createAdmission role req y now s =
      (s, CreateResult.serverError (DbErr.uniqueViolation "admissions_braccialetto_key")) := by
  rw [createAdmission_after_resolve hrole hres]
  have hins : insertAdmission s1 ⟨s1.nextAdmissionId, pid, allocateBraccialetto s1 y,
      now, "ATT", req.patologia, req.codiceColore, req.modalitaArrivo, none, now⟩ =
      .error (.uniqueViolation "admissions_braccialetto_key") := by
    unfold insertAdmission
    rw [if_neg (show ¬((!colorOk req.codiceColore) = true) by rw [hcolor]; simp)]
    rw [if_pos hdup]
  rw [hins]

/-- Claim C1 counterexample: a concrete createAdmission request whose bracelet
insert is rejected as a duplicate (the store holds "2025-0002" but not
"2025-0001", so the count-then-format recomputes "2025-0002"): the call
surfaces the collision to the caller at once as a uniqueness server error —
no retry, no AllocationExhausted — leaving the store unchanged. -/
theorem createAdmission_no_retry_counterexample :
    (storeCollision.admissions.any
      (fun b => b.braccialetto == allocateBraccialetto storeCollision 2025) = true) ∧
    createAdmission "DOC" reqLaura 2025 1 storeCollision =
      (storeCollision,
        CreateResult.serverError (DbErr.uniqueViolation "admissions_braccialetto_key")) := by
  decide

/-- Claim C7 amended: there is no registry validation at intake — whether
the admission is created depends only on membership of the colour string in
the database enum `triage_color`: an enum member proceeds (registered or
not), while a string outside the enum is rejected by the database, the
transaction rolls back, and no admission is created. -/
theorem createAdmission_color_enum_gate (role : String) (req : AdmissionRequest)
    (y now : Nat) (s : Store) (pid : Nat) (s1 : Store) (c : String)
    (hrole : role ≠ "AMM")
    (hres : resolvePatient s req now = .ok (pid, s1))
    (hc : req.codiceColore = some c)
    (hfresh : s1.admissions.any (fun b => b.braccialetto == allocateBraccialetto s1 y) = false) :
    ((∃ s2 a, createAdmission role req y now s = (s2, CreateResult.created a)) ↔
      triageColorEnum.contains c = true) ∧
    (triageColorEnum.contains c = false →
      createAdmission role req y now s =
        (s, CreateResult.serverError (DbErr.invalidEnumValue c))) := by
  rw [createAdmission_after_resolve hrole hres]
  by_cases hcc : triageColorEnum.contains c = true
  · have hcolor2 : colorOk req.codiceColore = true := by
      rw [hc]
      exact hcc
    have hins : insertAdmission s1 ⟨s1.nextAdmissionId, pid, allocateBraccialetto s1 y,
        now, "ATT", req.patologia, req.codiceColore, req.modalitaArrivo, none, now⟩ =
        .ok { s1 with admissions := s1.admissions ++ [⟨s1.nextAdmissionId, pid,
          allocateBraccialetto s1 y, now, "ATT", req.patologia, req.codiceColore,
          req.modalitaArrivo, none, now⟩], nextAdmissionId := s1.nextAdmissionId + 1 } := by
      unfold insertAdmission
      dsimp only
      rw [if_neg (by rw [hcolor2]; decide)]
      rw [if_neg (by rw [hfresh]; decide)]
      rw [if_neg (by decide)]
      rw [if_neg (by rw [resolvePatient_fk hres]; decide)]
    rw [hins]
    constructor
    · exact ⟨fun _ => hcc, fun _ => ⟨_, _, rfl⟩⟩
    · intro hfalse
      rw [hcc] at hfalse
      cases hfalse
  · have hccf : triageColorEnum.contains c = false := by
      cases hxc : triageColorEnum.contains c
      · rfl
      · exact absurd hxc hcc
    have hcolor2 : colorOk req.codiceColore = false := by
      rw [hc]
      exact hccf
    have hins : insertAdmission s1 ⟨s1.nextAdmissionId, pid, allocateBraccialetto s1 y,
        now, "ATT", req.patologia, req.codiceColore, req.modalitaArrivo, none, now⟩ =
        .error (.invalidEnumValue c) := by
      unfold insertAdmission
      dsimp only
      rw [if_pos (by rw [hcolor2]; decide)]
      rw [hc]
      rfl
    rw [hins]
    constructor
    · constructor
      · intro hex
        obtain ⟨s2, a, ha⟩ := hex
        cases ha
      · intro hcontr
        rw [hccf] at hcontr
        cases hcontr
    · intro _
      rfl

/-- Claim C7 counterexample: the colour "GIALLO" references no entry of the colour
registry, yet the operation does not proceed: the admission insert is
rejected by the `triage_color` enum, the transaction rolls back, and no
admission is created. -/
theorem createAdmission_unknown_color_counterexample :
    colorRegistry.contains "GIALLO" = false ∧
    createAdmission "DOC" reqGiallo 2025 0 emptyStore =
      (emptyStore, CreateResult.serverError (DbErr.invalidEnumValue "GIALLO")) := by
  decide

/-- Claim C4: evaluation of the PATCH handler at an identifier matching no
admission (id 999 in a store whose only admission has id 1) with the valid
target "ATT": the call does not fail with NotFound — it answers 200 with an
absent row (`rows[0]` is undefined) — and changes no stored admission. -/
theorem transition_missing_admission_eval :
    transition 999 "ATT" storeCollision = (storeCollision, TransitionResult.okPayload none) ∧
    storeCollision.admissions.all (fun a => a.id != 999) = true := by
  decide

/-- Witness for C3: the first admission of year 2025 on the empty store gets
bracelet "2025-0001" and raises the year count from 0 to 1. -/
theorem createAdmission_bracelet_sequence_witness :
    admMario.braccialetto = formatBraccialetto 2025 (countYear emptyStore 2025 + 1) ∧
    countYear storeAfterMario 2025 = countYear emptyStore 2025 + 1 ∧
    (countYear emptyStore 2025 = 0 → admMario.braccialetto = toString 2025 ++ "-0001") :=
  createAdmission_bracelet_sequence "DOC" reqMario 2025 0 emptyStore storeAfterMario
    admMario (by decide)

/-- Witness for C5: on a store holding admission id 1, the target "GIALLO"
is rejected as InvalidState and the target "DIM" is accepted with the
returned row in state "DIM". -/
theorem transition_invalid_iff_witness :
    (transition 1 "GIALLO" storeAfterMario).2 = TransitionResult.invalidState ∧
    (∃ b, (transition 1 "DIM" storeAfterMario).2 = TransitionResult.okPayload (some b) ∧
      b.id = 1 ∧ b.stato = "DIM") :=
  ⟨(transition_invalid_iff storeAfterMario 1 "GIALLO" ⟨admMario, by decide, by decide⟩).1.mpr
      (by decide),
   (transition_invalid_iff storeAfterMario 1 "DIM" ⟨admMario, by decide, by decide⟩).2.1
      (by decide)⟩

/-- Witness for C9: transitioning admission 1 to "DIM" keeps the patient
table and the number of admission rows. -/
theorem transition_frame_witness :
    (transition 1 "DIM" storeAfterMario).1.patients = storeAfterMario.patients ∧
    (transition 1 "DIM" storeAfterMario).1.admissions.length =
      storeAfterMario.admissions.length :=
  ⟨(transition_frame storeAfterMario 1 "DIM" (by decide)).1,
   (transition_frame storeAfterMario 1 "DIM" (by decide)).2.1⟩

/-- Witness for C6: the AMM role is rejected on the empty store with no
effect, and the DOC role is not rejected by the authorization check. -/
theorem createAdmission_amm_gate_witness :
    createAdmission "AMM" reqMario 2025 0 emptyStore = (emptyStore, CreateResult.forbidden) ∧
    (createAdmission "DOC" reqMario 2025 0 emptyStore).2 ≠ CreateResult.forbidden :=
  ⟨(createAdmission_amm_gate "DOC" reqMario 2025 0 emptyStore).1,
   (createAdmission_amm_gate "DOC" reqMario 2025 0 emptyStore).2 (by decide)⟩

/-- Witness for C8: repeating Mario's codice fiscale against a store that
already holds him leaves the patient table unchanged, and the original
creation on the empty store appended exactly one patient row carrying the
request's demographics. -/
theorem createAdmission_patient_idempotent_witness :
    (createAdmission "DOC" reqMario 2025 5 storeAfterMario).1.patients =
      storeAfterMario.patients ∧
    (∃ np : Patient, storeAfterMario.patients = emptyStore.patients ++ [np] ∧
      admMario.patient_id = np.id ∧ np.codice_fiscale = "RSSMRA80E20H501U" ∧
      some np.nome = reqMario.nome ∧ some np.cognome = reqMario.cognome ∧
      some np.data_nascita = reqMario.dataDiNascita ∧ np.indirizzo_via = reqMario.via ∧
      np.indirizzo_civico = reqMario.civico ∧ np.comune = reqMario.comune ∧
      np.provincia = reqMario.provincia) :=
  ⟨((createAdmission_patient_idempotent "DOC" reqMario 2025 5 storeAfterMario).1
      "RSSMRA80E20H501U" patMario rfl (by decide)).1,
   (createAdmission_patient_idempotent "DOC" reqMario 2025 0 emptyStore).2
      "RSSMRA80E20H501U" rfl rfl storeAfterMario admMario (by decide)⟩

/-- Witness for C10: with 9999 admissions counted in year 2025, the next
bracelet is "2025-10000", and the 5-digit sequence passes through the
padding unchanged. -/
theorem bracelet_seq_min_width_witness :
    formatBraccialetto 2025 (9999 + 1) = toString 2025 ++ "-10000" ∧
    padStart (toString (9999 + 1)) 4 '0' = toString (9999 + 1) :=
  ⟨(bracelet_seq_min_width 2025 9999).2.2.2.2 rfl,
   (bracelet_seq_min_width 2025 9999).2.2.2.1 (by decide)⟩

/-- Witness for the C1 amended theorem at the concrete collision store. -/
theorem createAdmission_duplicate_surfaces_witness :
    createAdmission "DOC" reqLaura 2025 1 storeCollision =
      (storeCollision,
        CreateResult.serverError (DbErr.uniqueViolation "admissions_braccialetto_key")) :=
  createAdmission_duplicate_surfaces "DOC" reqLaura 2025 1 storeCollision 2 storeCollision1
    (by decide) rfl (by decide) (by decide)

/-- Witness for the C7 amended theorem: the enum member "ROSSO" proceeds to
a created admission, the non-member "GIALLO" is rejected with a rolled-back
store. -/
theorem createAdmission_color_enum_gate_witness :
    (∃ s2 a, createAdmission "DOC" reqMario 2025 0 emptyStore =
      (s2, CreateResult.created a)) ∧
    createAdmission "DOC" reqGiallo 2025 0 emptyStore =
      (emptyStore, CreateResult.serverError (DbErr.invalidEnumValue "GIALLO")) :=
  ⟨(createAdmission_color_enum_gate "DOC" reqMario 2025 0 emptyStore 1 storePatMario "ROSSO"
      (by decide) rfl rfl (by decide)).1.mpr (by decide),
   (createAdmission_color_enum_gate "DOC" reqGiallo 2025 0 emptyStore 1 storePatGiulia "GIALLO"
      (by decide) rfl rfl (by decide)).2 (by decide)⟩
